import Mathlib

/-!
Shallow embedding of the `syntheseus` reaction-model interface layer
(`syntheseus/interface/models.py`) and of the LocalRetro adapter
(`syntheseus/reaction_prediction/inference/local_retro.py`).

Modelling conventions:
* Python `float` values are modelled as rationals (`ℚ`); the library functions
  `math.exp` and `math.log` are external to the repository and are modelled as
  explicit function parameters (`mexp`, `mlog`).
* `raise` / pydantic validation failure is modelled with `Except String`.
* `Dict[str, Any]` metadata is modelled as an association list of strings;
  its contents are irrelevant to the verified properties.
* Python's list slice `l[:n]` (including its negative-index semantics) is
  modelled by `pySliceUpTo`.
All definitions are translated from the Python source; definitions whose
source is part of the repository but outside the provided files are marked
`Modelled from the spec:` in their doc comment.
-/

set_option autoImplicit false

namespace Syntheseus

/-- Collaborator type from `syntheseus/interface/molecule.py`: an opaque
chemical-structure value carrying a SMILES serialization, compared by
structure identity. -/
structure Molecule where
  smiles : String
deriving DecidableEq, Repr

/-- Collaborator type from `syntheseus/interface/bag.py`: an unordered
multiset. -/
abbrev Bag (α : Type) := Multiset α

/-- Embedding of `Prediction` (`interface/models.py`, lines 17-58):
a single reaction prediction with optional confidence metadata.
Fields mirror the pydantic model; `metadata` values are modelled as strings. -/
structure Prediction (α β : Type) where
  input : α
  output : β
  probability : Option ℚ := none
  log_prob : Option ℚ := none
  score : Option ℚ := none
  reaction : Option String := none
  rxnid : Option Int := none
  metadata : List (String × String) := []
deriving DecidableEq

/-- Embedding of constructing a `Prediction` through pydantic, which runs the
`check_at_most_one_source_prob` root validator (`interface/models.py`,
lines 52-58): construction fails exactly when both `probability` and
`log_prob` are non-null.  No other cross-field or range validation is
performed by the source. -/
def Prediction.create {α β : Type} (input : α) (output : β)
    (probability log_prob score : Option ℚ) (reaction : Option String)
    (rxnid : Option Int) (metadata : List (String × String)) :
    Except String (Prediction α β) :=
  if probability.isSome && log_prob.isSome then
    Except.error "Probability can be stored as probability or log probability, not both"
  else
    Except.ok { input := input, output := output, probability := probability,
                log_prob := log_prob, score := score, reaction := reaction,
                rxnid := rxnid, metadata := metadata }

/-- Embedding of `Prediction.get_prob` (`interface/models.py`, lines 36-42).
`mexp` models the external `math.exp`. -/
def Prediction.get_prob {α β : Type} (mexp : ℚ → ℚ) (p : Prediction α β) :
    Except String ℚ :=
  match p.probability with
  | some q => Except.ok q
  | none =>
    match p.log_prob with
    | some l => Except.ok (mexp l)
    | none =>
      Except.error "Prediction does not have associated probability or log prob value."

/-- Embedding of `Prediction.get_log_prob` (`interface/models.py`, lines 44-50).
`mlog` models the external `math.log`. -/
def Prediction.get_log_prob {α β : Type} (mlog : ℚ → ℚ) (p : Prediction α β) :
    Except String ℚ :=
  match p.log_prob with
  | some l => Except.ok l
  | none =>
    match p.probability with
    | some q => Except.ok (mlog q)
    | none =>
      Except.error "Prediction does not have associated log prob or probability value."

/-- Python's prefix slice `l[:n]`: for `n ≥ 0` the first `n` elements
(clamped to the length); for `n < 0` the first `max(0, len(l) + n)`
elements, i.e. everything but the last `|n|` elements. -/
def pySliceUpTo {α : Type} (n : Int) (l : List α) : List α :=
  if 0 ≤ n then l.take n.toNat else l.take ((l.length : Int) + n).toNat

/-- Embedding of `PredictionList` (`interface/models.py`, lines 61-76):
several possible predictions for one shared input. -/
structure PredictionList (α β : Type) where
  input : α
  predictions : List (Prediction α β)
  metadata : List (String × String) := []
deriving DecidableEq

/-- Embedding of `PredictionList.truncated` (`interface/models.py`,
lines 72-76): rebuilds the record from its field dictionary with
`predictions` sliced by Python's `[:num_results]`; the receiver is a pure
value and is not mutated. -/
def PredictionList.truncated {α β : Type} (pl : PredictionList α β)
    (num_results : Int) : PredictionList α β :=
  { input := pl.input,
    predictions := pySliceUpTo num_results pl.predictions,
    metadata := pl.metadata }

/-- Embedding of the `ReactionModel` base class (`interface/models.py`,
lines 79-113).  Methods become fields holding their return values; an
overridable method with a base-class default (`is_backward`,
`get_parameters`) is modelled by an `Option`-valued `..._impl` field where
`none` means "not overridden, base-class behaviour applies".
`get_parameters` returns an iterator over learnable parameters, modelled as
a list of rationals. -/
structure ReactionModel (α β : Type) where
  call : List α → Int → List (PredictionList α β)
  is_forward : Bool
  is_backward_impl : Option Bool := none
  get_model_info : List (String × String) := []
  get_parameters_impl : Option (List ℚ) := none

/-- Embedding of `ReactionModel.is_backward` (`interface/models.py`,
lines 104-105): the base-class default returns `not self.is_forward()`;
a subclass override, when present, takes precedence. -/
def ReactionModel.is_backward {α β : Type} (m : ReactionModel α β) : Bool :=
  match m.is_backward_impl with
  | some b => b
  | none => !m.is_forward

/-- Embedding of `ReactionModel.get_parameters` (`interface/models.py`,
lines 107-113): the base-class default raises `NotImplementedError`;
a subclass override, when present, returns its parameter view. -/
def ReactionModel.get_parameters {α β : Type} (m : ReactionModel α β) :
    Except String (List ℚ) :=
  match m.get_parameters_impl with
  | some ps => Except.ok ps
  | none => Except.error "NotImplementedError"

/-- Embedding of subclassing `BackwardReactionModel` (`interface/models.py`,
lines 120-122): `is_forward` is fixed to `False`, `is_backward` and the
other defaults are inherited, the subclass supplies `__call__` and may
override `get_parameters` and `get_model_info`. -/
def BackwardReactionModel.subclass
    (call : List Molecule → Int → List (PredictionList Molecule (Bag Molecule)))
    (get_model_info : List (String × String) := [])
    (get_parameters_impl : Option (List ℚ) := none) :
    ReactionModel Molecule (Bag Molecule) :=
  { call := call, is_forward := false, is_backward_impl := none,
    get_model_info := get_model_info, get_parameters_impl := get_parameters_impl }

/-- Embedding of subclassing `ForwardReactionModel` (`interface/models.py`,
lines 125-127): `is_forward` is fixed to `True`; otherwise as the backward
variant. -/
def ForwardReactionModel.subclass
    (call : List (Bag Molecule) → Int → List (PredictionList (Bag Molecule) (Bag Molecule)))
    (get_model_info : List (String × String) := [])
    (get_parameters_impl : Option (List ℚ) := none) :
    ReactionModel (Bag Molecule) (Bag Molecule) :=
  { call := call, is_forward := true, is_backward_impl := none,
    get_model_info := get_model_info, get_parameters_impl := get_parameters_impl }

/-- A model directory as seen by `LocalRetroModel.__init__`
(`local_retro.py`, lines 25-63): the file names directly in `model_dir`
and those in `model_dir/data`. -/
structure ModelDir where
  files : List String
  data_files : List String

/-- `fnmatch`-style check for the `*.pth` pattern. -/
def isPthFile (f : String) : Bool := f.endsWith ".pth"

/-- `fnmatch`-style check for the `*.json` pattern. -/
def isJsonFile (f : String) : Bool := f.endsWith ".json"

/-- `fnmatch`-style check for the `*.csv` pattern. -/
def isCsvFile (f : String) : Bool := f.endsWith ".csv"

/-- Modelled from the spec: `get_unique_file_in_dir` lives in
`syntheseus/reaction_prediction/utils/inference.py`, which is part of the
repository but not among the provided files.  Per the spec it locates a
required model artifact in a directory, failing with a configuration error
unless the matching file can be *uniquely* located. -/
def get_unique_file_in_dir (files : List String) (pattern_check : String → Bool) :
    Except String String :=
  match files.filter pattern_check with
  | [f] => Except.ok f
  | _ => Except.error "configuration error: expected exactly one file matching pattern"

/-- The external LocalRetro/torch collaborator (third-party library, out of
scope): its loaded-model parameter view and its end-to-end ranked decode of
one input molecule into candidate reactant-set SMILES with probability-like
scores (`predict` + softmax + `combined_edit` + `get_k_predictions` + `eval`
in `local_retro.py`, lines 98-124 and 136-144). -/
structure ExternalLocalRetro where
  params : List ℚ
  decode : Molecule → Int → List (String × ℚ)

/-- Embedding of a constructed `LocalRetroModel` (`local_retro.py`,
lines 24-66): it holds the located artifact paths and the loaded external
model. -/
structure LocalRetroModel where
  model_path : String
  config_path : String
  ext : ExternalLocalRetro

/-- Embedding of `LocalRetroModel.__init__` (`local_retro.py`, lines 25-63):
during construction the checkpoint (`*.pth`) and config (`*.json`) are
located with `get_unique_file_in_dir`, and the `*.csv` data files under
`model_dir/data` are loaded by the external `init_featurizer`/
`load_templates` calls.  Modelled from the spec: the data-file loading step
(external library code invoked at construction) fails with a configuration
error when the data files cannot be located. -/
def LocalRetroModel.init (dir : ModelDir) (ext : ExternalLocalRetro) :
    Except String LocalRetroModel := do
  let model_path ← get_unique_file_in_dir dir.files isPthFile
  let config_path ← get_unique_file_in_dir dir.files isJsonFile
  if (dir.data_files.filter isCsvFile).isEmpty then
    Except.error "configuration error: data files needed by LocalRetro not found"
  else
    Except.ok { model_path := model_path, config_path := config_path, ext := ext }

/-- Embedding of `LocalRetroModel.get_parameters` (`local_retro.py`,
lines 65-66): returns the underlying torch model's parameter view. -/
def LocalRetroModel.get_parameters_value (m : LocalRetroModel) : List ℚ :=
  m.ext.params

/-- Modelled from the spec: `process_raw_smiles_outputs` lives in
`syntheseus/reaction_prediction/utils/inference.py`, which is part of the
repository but not among the provided files.  Per the spec it packages each
decoded candidate (a raw SMILES-like string plus the probability passed in
`kwargs_list`) into a `Prediction` populated with `output` and
`probability` (never `log_prob`), preserving candidate order.  `parse`
models the external SMILES-to-molecule-bag conversion. -/
def process_raw_smiles_outputs (parse : String → Bag Molecule) (input : Molecule)
    (output_list : List (String × ℚ)) : PredictionList Molecule (Bag Molecule) :=
  { input := input,
    predictions := output_list.map fun c =>
      { input := input, output := parse c.1, probability := some c.2,
        log_prob := none, score := none, reaction := none, rxnid := none,
        metadata := [] },
    metadata := [] }

/-- Embedding of `LocalRetroModel._build_batch_predictions`
(`local_retro.py`, lines 85-134): for each input, in batch order, the
external per-input decode results are packaged through
`process_raw_smiles_outputs`.  The per-input raw results are aligned with
`inputs` positionally (`enumerate(inputs)` indexing into
`args["raw_predictions"]`, which the first loop fills with one entry per
input). -/
def LocalRetroModel.build_batch_predictions (parse : String → Bag Molecule)
    (inputs : List Molecule) (raw : List (List (String × ℚ))) :
    List (PredictionList Molecule (Bag Molecule)) :=
  (inputs.zip raw).map fun p => process_raw_smiles_outputs parse p.1 p.2

/-- Embedding of `LocalRetroModel.__call__` (`local_retro.py`,
lines 136-148): runs the external model on the whole batch (yielding, per
input molecule, a ranked candidate list) and packages the results with
`_build_batch_predictions`. -/
def LocalRetroModel.call (m : LocalRetroModel) (parse : String → Bag Molecule)
    (inputs : List Molecule) (num_results : Int) :
    List (PredictionList Molecule (Bag Molecule)) :=
  LocalRetroModel.build_batch_predictions parse inputs
    (inputs.map fun inp => m.ext.decode inp num_results)

/-- The `LocalRetroModel` class viewed through the `ReactionModel`
interface: it subclasses `BackwardReactionModel` (`local_retro.py`,
line 24), inheriting `is_forward = False` and the default `is_backward`,
and overrides `__call__` and `get_parameters`. -/
def LocalRetroModel.toReactionModel (m : LocalRetroModel)
    (parse : String → Bag Molecule) : ReactionModel Molecule (Bag Molecule) :=
  BackwardReactionModel.subclass (m.call parse) [] (some m.get_parameters_value)

/-! Concrete sample values used to instantiate theorems with hypotheses. -/

def sampleMol : Molecule := ⟨"CO"⟩

def sampleBag : Bag Molecule := ∅

def samplePredProb : Prediction Molecule (Bag Molecule) :=
  { input := sampleMol, output := sampleBag, probability := some (1/2) }

def samplePredLog : Prediction Molecule (Bag Molecule) :=
  { input := sampleMol, output := sampleBag, log_prob := some (-1) }

def samplePredNone : Prediction Molecule (Bag Molecule) :=
  { input := sampleMol, output := sampleBag }

def samplePL : PredictionList Molecule (Bag Molecule) :=
  { input := sampleMol,
    predictions := [samplePredProb, samplePredLog, samplePredNone],
    metadata := [("k", "v")] }

/-- C1: constructing a `Prediction` with both `probability` and `log_prob`
non-null fails with a validation error; constructing it with exactly one of
the two set, or with neither set, succeeds. -/
theorem c1_prediction_create_validation {α β : Type} (inp : α) (out : β)
    (p l : ℚ) (s : Option ℚ) (r : Option String) (rx : Option Int)
    (md : List (String × String)) :
    (∃ e, Prediction.create inp out (some p) (some l) s r rx md = Except.error e) ∧
    (∃ pr, Prediction.create inp out (some p) none s r rx md = Except.ok pr) ∧
    (∃ pr, Prediction.create inp out none (some l) s r rx md = Except.ok pr) ∧
    (∃ pr, Prediction.create inp out none none s r rx md = Except.ok pr) :=
  ⟨⟨_, rfl⟩, ⟨_, rfl⟩, ⟨_, rfl⟩, ⟨_, rfl⟩⟩

/-- C2: for `n ≥ 0`, `truncated n` keeps exactly the first `min(k, n)`
predictions in order and copies `input` and `metadata` unchanged.  The
receiver is a pure value in this embedding, so it is unmodified by
construction. -/
theorem c2_truncated_nonneg {α β : Type} (pl : PredictionList α β) (n : Int)
    (hn : 0 ≤ n) :
    (pl.truncated n).predictions.length = min pl.predictions.length n.toNat ∧
    (pl.truncated n).predictions = pl.predictions.take n.toNat ∧
    (pl.truncated n).input = pl.input ∧
    (pl.truncated n).metadata = pl.metadata := by
  unfold PredictionList.truncated pySliceUpTo
  rw [if_pos hn]
  refine ⟨?_, rfl, rfl, rfl⟩
  simp [List.length_take, Nat.min_comm]

/-- Witness for C2 at a concrete prediction list and `n = 2`. -/
theorem c2_truncated_nonneg_witness :
    (samplePL.truncated 2).predictions.length
        = min samplePL.predictions.length (2 : Int).toNat ∧
    (samplePL.truncated 2).predictions = samplePL.predictions.take (2 : Int).toNat ∧
    (samplePL.truncated 2).input = samplePL.input ∧
    (samplePL.truncated 2).metadata = samplePL.metadata :=
  c2_truncated_nonneg samplePL 2 (by decide)

/-- C5 counterexample: the claim says a `Prediction` whose `probability`
violates the `[0,1]` range cannot be constructed, but the source performs
no range validation: `probability = 2` constructs successfully. -/
theorem c5_range_validation_cex :
    ∃ pr : Prediction Molecule (Bag Molecule),
      Prediction.create sampleMol sampleBag (some 2) none none none none []
          = Except.ok pr ∧
      pr.probability = some 2 ∧ ¬ ((2 : ℚ) ≤ 1) :=
  ⟨_, rfl, rfl, by norm_num⟩

/-- C5 amended: construction success depends only on the
at-most-one-of-`probability`/`log_prob` check; the ranges `[0,1]` and
`≤ 0` are not validated, so out-of-range values are accepted. -/
theorem c5_amended_create_checks_only_exclusivity {α β : Type} (inp : α)
    (out : β) (probability log_prob score : Option ℚ) (r : Option String)
    (rx : Option Int) (md : List (String × String)) :
    (Prediction.create inp out probability log_prob score r rx md).isOk
      = !(probability.isSome && log_prob.isSome) := by
  unfold Prediction.create
  cases probability <;> cases log_prob <;> rfl

/-- C10: for negative `n`, `truncated n` follows Python's negative-slice
semantics, keeping the first `max(0, k + n)` predictions (dropping the last
`|n|`), and still copies `input` and `metadata` unchanged. -/
theorem c10_truncated_negative {α β : Type} (pl : PredictionList α β) (n : Int)
    (hn : n < 0) :
    (pl.truncated n).predictions
        = pl.predictions.take ((pl.predictions.length : Int) + n).toNat ∧
    (pl.truncated n).predictions.length
        = pl.predictions.length - (-n).toNat ∧
    (pl.truncated n).input = pl.input ∧
    (pl.truncated n).metadata = pl.metadata := by
  unfold PredictionList.truncated pySliceUpTo
  rw [if_neg (by omega)]
  refine ⟨rfl, ?_, rfl, rfl⟩
  simp only [List.length_take]
  omega

/-- Witness for C10 at a concrete prediction list and `n = -1`. -/
theorem c10_truncated_negative_witness :
    (samplePL.truncated (-1)).predictions
        = samplePL.predictions.take ((samplePL.predictions.length : Int) + (-1)).toNat ∧
    (samplePL.truncated (-1)).predictions.length
        = samplePL.predictions.length - (-(-1 : Int)).toNat ∧
    (samplePL.truncated (-1)).input = samplePL.input ∧
    (samplePL.truncated (-1)).metadata = samplePL.metadata :=
  c10_truncated_negative samplePL (-1) (by decide)

/-- C3: a `Prediction` constructed with `probability = p ∈ (0,1]` (and
`log_prob` unset) has `get_prob() = p` exactly and `get_log_prob()` equal
to `math.log` applied to `p`; one constructed with `log_prob = l ≤ 0` (and
`probability` unset) has `get_log_prob() = l` exactly and `get_prob()`
equal to `math.exp` applied to `l`.  The external `math.exp`/`math.log`
are modelled by the parameters `mexp`/`mlog`, making the approximate
float clauses exact in the model. -/
theorem c3_confidence_accessors {α β : Type} (mexp mlog : ℚ → ℚ) (inp : α)
    (out : β) (p l : ℚ) (s : Option ℚ) (r : Option String) (rx : Option Int)
    (md : List (String × String)) :
    (0 < p → p ≤ 1 →
      ∀ pr, Prediction.create inp out (some p) none s r rx md = Except.ok pr →
        pr.get_prob mexp = Except.ok p ∧ pr.get_log_prob mlog = Except.ok (mlog p)) ∧
    (l ≤ 0 →
      ∀ pr, Prediction.create inp out none (some l) s r rx md = Except.ok pr →
        pr.get_log_prob mlog = Except.ok l ∧ pr.get_prob mexp = Except.ok (mexp l)) := by
  constructor
  · intro _ _ pr hpr
    rw [show Prediction.create inp out (some p) none s r rx md
          = Except.ok { input := inp, output := out, probability := some p,
                        log_prob := none, score := s, reaction := r,
                        rxnid := rx, metadata := md } from rfl] at hpr
    cases hpr
    exact ⟨rfl, rfl⟩
  · intro _ pr hpr
    rw [show Prediction.create inp out none (some l) s r rx md
          = Except.ok { input := inp, output := out, probability := none,
                        log_prob := some l, score := s, reaction := r,
                        rxnid := rx, metadata := md } from rfl] at hpr
    cases hpr
    exact ⟨rfl, rfl⟩

/-- Witness for C3 at `p = 1/2`, `l = -1`, with identity models of
`math.exp`/`math.log`. -/
theorem c3_confidence_accessors_witness :
    (samplePredProb.get_prob (fun q => q) = Except.ok (1/2) ∧
      samplePredProb.get_log_prob (fun q => q) = Except.ok ((fun q : ℚ => q) (1/2))) ∧
    (samplePredLog.get_log_prob (fun q => q) = Except.ok (-1) ∧
      samplePredLog.get_prob (fun q => q) = Except.ok ((fun q : ℚ => q) (-1))) :=
  ⟨(c3_confidence_accessors (fun q => q) (fun q => q) sampleMol sampleBag
      (1/2) (-1) none none none []).1 (by norm_num) (by norm_num)
      samplePredProb rfl,
   (c3_confidence_accessors (fun q => q) (fun q => q) sampleMol sampleBag
      (1/2) (-1) none none none []).2 (by norm_num) samplePredLog rfl⟩

/-- C4: with neither confidence field set, both accessors fail with the
missing-confidence error; with at least one field set, neither accessor
fails. -/
theorem c4_missing_confidence {α β : Type} (mexp mlog : ℚ → ℚ)
    (pr : Prediction α β) :
    (pr.probability = none → pr.log_prob = none →
      (∃ e, pr.get_prob mexp = Except.error e) ∧
      (∃ e, pr.get_log_prob mlog = Except.error e)) ∧
    (pr.probability.isSome ∨ pr.log_prob.isSome →
      (∃ q, pr.get_prob mexp = Except.ok q) ∧
      (∃ q, pr.get_log_prob mlog = Except.ok q)) := by
  constructor
  · intro hp hl
    unfold Prediction.get_prob Prediction.get_log_prob
    rw [hp, hl]
    exact ⟨⟨_, rfl⟩, ⟨_, rfl⟩⟩
  · intro h
    unfold Prediction.get_prob Prediction.get_log_prob
    rcases hp : pr.probability with _ | q
    · rcases hl : pr.log_prob with _ | l
      · rw [hp, hl] at h
        simp at h
      · exact ⟨⟨_, rfl⟩, ⟨_, rfl⟩⟩
    · rcases hl : pr.log_prob with _ | l
      · exact ⟨⟨_, rfl⟩, ⟨_, rfl⟩⟩
      · exact ⟨⟨_, rfl⟩, ⟨_, rfl⟩⟩

/-- Witness for C4 at concrete predictions: one with no confidence field,
one with `probability` set. -/
theorem c4_missing_confidence_witness :
    ((∃ e, samplePredNone.get_prob (fun q => q) = Except.error e) ∧
      (∃ e, samplePredNone.get_log_prob (fun q => q) = Except.error e)) ∧
    ((∃ q, samplePredProb.get_prob (fun q => q) = Except.ok q) ∧
      (∃ q, samplePredProb.get_log_prob (fun q => q) = Except.ok q)) :=
  ⟨(c4_missing_confidence (fun q => q) (fun q => q) samplePredNone).1 rfl rfl,
   (c4_missing_confidence (fun q => q) (fun q => q) samplePredProb).2
     (Or.inl rfl)⟩

/-- C6: any `ReactionModel` that does not override `is_backward` has
`is_backward` equal to the negation of `is_forward`; every
`ForwardReactionModel` subclass has `is_forward = true`,
`is_backward = false`, and every `BackwardReactionModel` subclass the
reverse. -/
theorem c6_is_backward_negation :
    (∀ (α β : Type) (m : ReactionModel α β), m.is_backward_impl = none →
        m.is_backward = !m.is_forward) ∧
    (∀ call info params,
        (ForwardReactionModel.subclass call info params).is_forward = true ∧
        (ForwardReactionModel.subclass call info params).is_backward = false) ∧
    (∀ call info params,
        (BackwardReactionModel.subclass call info params).is_forward = false ∧
        (BackwardReactionModel.subclass call info params).is_backward = true) := by
  refine ⟨fun α β m h => ?_, fun call info params => ⟨rfl, rfl⟩,
    fun call info params => ⟨rfl, rfl⟩⟩
  unfold ReactionModel.is_backward
  rw [h]

/-- Witness for C6 at a concrete backward model with no overrides. -/
theorem c6_is_backward_negation_witness :
    (BackwardReactionModel.subclass (fun _ _ => []) [] none).is_backward
      = !(BackwardReactionModel.subclass (fun _ _ => []) [] none).is_forward :=
  c6_is_backward_negation.1 Molecule (Bag Molecule)
    (BackwardReactionModel.subclass (fun _ _ => []) [] none) rfl

/-- C9: the `ReactionModel` base-class `get_parameters` (not overridden)
fails with a not-implemented error; the `LocalRetroModel` override instead
returns the underlying model's parameter view. -/
theorem c9_get_parameters_default :
    (∀ (α β : Type) (m : ReactionModel α β), m.get_parameters_impl = none →
        m.get_parameters = Except.error "NotImplementedError") ∧
    (∀ (m : LocalRetroModel) (parse : String → Bag Molecule),
        (m.toReactionModel parse).get_parameters = Except.ok m.ext.params) := by
  refine ⟨fun α β m h => ?_, fun m parse => rfl⟩
  unfold ReactionModel.get_parameters
  rw [h]

/-- Witness for C9 at a concrete model with the default `get_parameters`. -/
theorem c9_get_parameters_default_witness :
    (BackwardReactionModel.subclass (fun _ _ => []) [] none).get_parameters
      = Except.error "NotImplementedError" :=
  c9_get_parameters_default.1 Molecule (Bag Molecule)
    (BackwardReactionModel.subclass (fun _ _ => []) [] none) rfl

/-- Helper: the batched `__call__` produces exactly the per-input packaging
of the external decode, input by input. -/
theorem localretro_call_eq_map (m : LocalRetroModel)
    (parse : String → Bag Molecule) (inputs : List Molecule) (n : Int) :
    m.call parse inputs n
      = inputs.map fun inp =>
          process_raw_smiles_outputs parse inp (m.ext.decode inp n) := by
  unfold LocalRetroModel.call LocalRetroModel.build_batch_predictions
  induction inputs with
  | nil => rfl
  | cons a t ih => exact congrArg (List.cons _) ih

/-- C7: `LocalRetroModel.__call__` returns one `PredictionList` per input,
positionally aligned with the input batch (duplicate inputs get their own
entries), with each contained `Prediction` carrying `output` and
`probability` and never `log_prob`, in the external model's ranking
order. -/
theorem c7_call_positional (m : LocalRetroModel) (parse : String → Bag Molecule)
    (inputs : List Molecule) (n : Int) :
    (m.call parse inputs n).length = inputs.length ∧
    (∀ i : ℕ, (m.call parse inputs n)[i]?
        = (inputs[i]?).map fun inp =>
            process_raw_smiles_outputs parse inp (m.ext.decode inp n)) ∧
    (∀ i : ℕ, ((m.call parse inputs n)[i]?).map
          (fun pl : PredictionList Molecule (Bag Molecule) => (pl.input,
            pl.predictions.map fun pr => (pr.output, pr.probability, pr.log_prob)))
        = (inputs[i]?).map fun inp =>
            (inp, (m.ext.decode inp n).map fun c =>
              (parse c.1, some c.2, (none : Option ℚ)))) := by
  rw [localretro_call_eq_map]
  refine ⟨by simp, fun i => by simp, fun i => ?_⟩
  rw [List.getElem?_map, Option.map_map]
  have hfun : ((fun pl : PredictionList Molecule (Bag Molecule) =>
        (pl.input,
          pl.predictions.map fun pr => (pr.output, pr.probability, pr.log_prob)))
        ∘ fun inp => process_raw_smiles_outputs parse inp (m.ext.decode inp n))
      = fun inp => (inp, (m.ext.decode inp n).map fun c =>
          (parse c.1, some c.2, (none : Option ℚ))) := by
    funext inp
    show (inp, ((m.ext.decode inp n).map _).map _) = _
    rw [List.map_map]
    rfl
  rw [hfun]

/-- Helper: `get_unique_file_in_dir` fails whenever the number of matching
files differs from one. -/
theorem get_unique_file_in_dir_error_of_ne_one (files : List String)
    (pc : String → Bool) (h : (files.filter pc).length ≠ 1) :
    ∃ e, get_unique_file_in_dir files pc = Except.error e := by
  unfold get_unique_file_in_dir
  rcases hm : files.filter pc with _ | ⟨a, _ | ⟨b, t⟩⟩
  · exact ⟨_, rfl⟩
  · rw [hm] at h
    simp at h
  · exact ⟨_, rfl⟩

/-- C8: constructing a `LocalRetroModel` from a directory in which the
checkpoint, config, or data files cannot be uniquely located fails with a
configuration error during `__init__`; in this embedding `call` is only
defined on successfully constructed models, so the failure cannot be
deferred to the first inference call. -/
theorem c8_init_fails_fast (dir : ModelDir) (ext : ExternalLocalRetro)
    (h : (dir.files.filter isPthFile).length ≠ 1 ∨
         (dir.files.filter isJsonFile).length ≠ 1 ∨
         dir.data_files.filter isCsvFile = []) :
    ∃ e, LocalRetroModel.init dir ext = Except.error e := by
  rcases h with h | h | h
  · obtain ⟨e, he⟩ := get_unique_file_in_dir_error_of_ne_one dir.files isPthFile h
    exact ⟨e, by unfold LocalRetroModel.init; rw [he]; rfl⟩
  · cases hp : get_unique_file_in_dir dir.files isPthFile with
    | error e => exact ⟨e, by unfold LocalRetroModel.init; rw [hp]; rfl⟩
    | ok f =>
      obtain ⟨e, he⟩ := get_unique_file_in_dir_error_of_ne_one dir.files isJsonFile h
      exact ⟨e, by unfold LocalRetroModel.init; rw [hp, he]; rfl⟩
  · cases hp : get_unique_file_in_dir dir.files isPthFile with
    | error e => exact ⟨e, by unfold LocalRetroModel.init; rw [hp]; rfl⟩
    | ok f =>
      cases hj : get_unique_file_in_dir dir.files isJsonFile with
      | error e => exact ⟨e, by unfold LocalRetroModel.init; rw [hp, hj]; rfl⟩
      | ok g =>
        refine ⟨"configuration error: data files needed by LocalRetro not found", ?_⟩
        unfold LocalRetroModel.init
        rw [hp, hj, h]
        rfl

/-- Witness for C8 at a concrete empty model directory (no checkpoint). -/
theorem c8_init_fails_fast_witness :
    ∃ e, LocalRetroModel.init ⟨[], []⟩ ⟨[], fun _ _ => []⟩ = Except.error e :=
  c8_init_fails_fast ⟨[], []⟩ ⟨[], fun _ _ => []⟩ (Or.inl (by decide))

end Syntheseus
